import Mathlib

/-!
Verification of the `knuspr-api` HTTP client against its specification.

The development shallowly embeds the Python sources (`src/knuspr/*.py`):
JSON values become an inductive `Json` type, Python `dict.get` /
truthiness / `int(...)` become explicit Lean functions, exceptions become
an error type threaded through `Except`, and the mutable session state of
the authenticator becomes explicit state passing.  JSON numbers are
modelled as integers: none of the verified properties performs float
arithmetic (float-valued fields such as prices are carried through as
opaque `Json` values).
-/

namespace Knuspr

/-- JSON values as delivered by `response.json()`.  Numbers are modelled as
integers; Python booleans are a separate constructor (but see `Json.isPyInt`:
Python `bool` is a subclass of `int`). -/
inductive Json where
  | null
  | bool (b : Bool)
  | int (n : Int)
  | str (s : String)
  | arr (elems : List Json)
  | obj (fields : List (String × Json))
deriving Repr

mutual

/-- Structural (deep) equality of JSON values, Python `==` on same-typed
values. -/
def Json.beq : Json → Json → Bool
  | .null, .null => true
  | .bool a, .bool b => a == b
  | .int a, .int b => a == b
  | .str a, .str b => a == b
  | .arr xs, .arr ys => Json.beqList xs ys
  | .obj fs, .obj gs => Json.beqFields fs gs
  | _, _ => false

/-- Elementwise equality of JSON arrays. -/
def Json.beqList : List Json → List Json → Bool
  | [], [] => true
  | x :: xs, y :: ys => Json.beq x y && Json.beqList xs ys
  | _, _ => false

/-- Entrywise equality of JSON object field lists. -/
def Json.beqFields : List (String × Json) → List (String × Json) → Bool
  | [], [] => true
  | (k, v) :: fs, (k', v') :: gs => k == k' && Json.beq v v' && Json.beqFields fs gs
  | _, _ => false

end

instance : BEq Json := ⟨Json.beq⟩

/-- `dict` lookup on the field list of a JSON object (Python dicts have unique
keys, so first-match lookup is faithful). -/
def lookupField : List (String × Json) → String → Option Json
  | [], _ => none
  | (k', v) :: fs, k => if k' == k then some v else lookupField fs k

/-- Python `d.get(k, dflt)`. -/
def lookupOr (fields : List (String × Json)) (k : String) (dflt : Json) : Json :=
  (lookupField fields k).getD dflt

/-- Python truthiness (`if x:`) on JSON values. -/
def Json.truthy : Json → Bool
  | .null => false
  | .bool b => b
  | .int n => n != 0
  | .str s => s != ""
  | .arr xs => !xs.isEmpty
  | .obj fs => !fs.isEmpty

/-- Python `isinstance(x, int)`; `bool` is a subclass of `int`. -/
def Json.isPyInt : Json → Bool
  | .int _ => true
  | .bool _ => true
  | _ => false

/-- Numeric value used by Python integer comparisons (`True == 1`). -/
def Json.pyIntVal : Json → Int
  | .int n => n
  | .bool b => if b then 1 else 0
  | _ => 0

/-- Python `==` between JSON values; bridges `bool`/`int` (`True == 1`), and is
structural equality otherwise (deep equality on the shapes we compare). -/
def Json.pyEq : Json → Json → Bool
  | .bool b, .int n => (if b then (1 : Int) else 0) == n
  | .int n, .bool b => n == (if b then (1 : Int) else 0)
  | a, b => a == b

/-- The exception taxonomy of `knuspr/exceptions.py`, plus the transport's
`httpx.HTTPStatusError` (from `response.raise_for_status()`) and a catch-all
for uncaught Python runtime errors (`AttributeError`, `TypeError`, ...).
`APIError.status_code` is kept as a raw JSON value because `auth.login`
passes the envelope's inner status through unchecked. -/
inductive KError where
  | knusprError (msg : String)
  | authenticationError (msg : String)
  | rateLimitError (msg : String)
  | apiError (msg : Json) (status_code : Json)
  | networkError (msg : String)
  | httpStatusError (status : Nat)
  | pyError (msg : String)
deriving Repr, BEq

/-- `messages = body.get("messages", []); msg = messages[0].get("content", fb)
if messages else fb` — the message extraction shared by
`KnusprClient._handle_response` and `AuthHandler.login`.  Indexing a truthy
non-list or a non-dict first element raises a Python runtime error. -/
def envelopeMsg (fields : List (String × Json)) (fallback : String) :
    Except KError Json :=
  let messages := lookupOr fields "messages" (.arr [])
  if messages.truthy then
    match messages with
    | .arr (first :: _) =>
      match first with
      | .obj mfs => .ok (lookupOr mfs "content" (.str fallback))
      | _ => .error (.pyError "AttributeError: messages[0] has no attribute get")
    | _ => .error (.pyError "TypeError: messages is not subscriptable")
  else
    .ok (.str fallback)

/-- `KnusprClient._handle_response`, as a function of the transport status
code and parsed JSON body.  `response.raise_for_status()` (httpx) raises
`HTTPStatusError` on every non-2xx status; `body.get(...)` on a non-dict
body raises `AttributeError`. -/
def handle_response (status_code : Nat) (body : Json) : Except KError Json :=
  if status_code == 429 then
    .error (.rateLimitError "Rate limit exceeded. Increase min_request_interval.")
  else if status_code == 401 || status_code == 403 then
    .error (.authenticationError "Session expired or invalid")
  else if status_code < 200 ∨ 300 ≤ status_code then
    .error (.httpStatusError status_code)
  else
    match body with
    | .obj fields =>
      let inner_status := lookupOr fields "status" .null
      if inner_status.truthy && inner_status.isPyInt && 400 ≤ inner_status.pyIntVal then
        match envelopeMsg fields "API error" with
        | .ok msg => .error (.apiError msg inner_status)
        | .error e => .error e
      else
        .ok (lookupOr fields "data" (.obj fields))
    | _ => .error (.pyError "AttributeError: body has no attribute get")

/-- Outcome of the transport call underlying `http_client.post` /
`client.request`: either a response (status code plus parsed JSON body) or a
connection-level `httpx.RequestError`. -/
inductive TransportResult where
  | ok (status_code : Nat) (body : Json)
  | requestError (msg : String)
deriving Repr, BEq

/-- The mutable session state of `AuthHandler` (`knuspr/auth.py`).
`user_id` / `address_id` hold whatever JSON value `data.user.id` /
`data.address.id` carried (Python `None` is `Json.null`). -/
structure AuthHandler where
  user_id : Json
  address_id : Json
  authenticated : Bool
deriving Repr, BEq

/-- `AuthHandler.__init__`: user_id = None, address_id = None,
_authenticated = False. -/
def AuthHandler.init : AuthHandler := ⟨.null, .null, false⟩

/-- `AuthHandler.is_authenticated`. -/
def AuthHandler.is_authenticated (a : AuthHandler) : Bool := a.authenticated

/-- The envelope handling of `AuthHandler.login` once `response.json()` has
produced a dict: the inner-status checks, then the extraction of
`data.user.id` / `data.address.id`.  The two id assignments happen one
after the other, so a crash while reading `data.address.id` (a Python
`AttributeError`) leaves `user_id` already assigned — the model reproduces
that ordering. -/
def login_obj (auth : AuthHandler) (fields : List (String × Json)) :
    Except KError Json × AuthHandler :=
  let inner_status := lookupOr fields "status" .null
  if inner_status.truthy &&
      (inner_status.pyEq (.int 401) || inner_status.pyEq (.int 403)) then
    (.error (.authenticationError "Invalid credentials"), auth)
  else if inner_status.truthy &&
      !(inner_status.pyEq (.int 200) || inner_status.pyEq (.int 202)) then
    match envelopeMsg fields "Login failed" with
    | .ok msg => (.error (.apiError msg inner_status), auth)
    | .error e => (.error e, auth)
  else
    let user_data := lookupOr fields "data" (.obj [])
    match user_data with
    | .obj ufs =>
      match lookupOr ufs "user" (.obj []) with
      | .obj user_fs =>
        let auth1 : AuthHandler :=
          { auth with user_id := lookupOr user_fs "id" .null }
        match lookupOr ufs "address" (.obj []) with
        | .obj addr_fs =>
          (.ok (.obj fields),
           { auth1 with
               address_id := lookupOr addr_fs "id" .null
               authenticated := true })
        | _ =>
          (.error (.pyError "AttributeError: address has no attribute get"),
           auth1)
      | _ =>
        (.error (.pyError "AttributeError: user has no attribute get"), auth)
    | _ =>
      (.error (.pyError "AttributeError: data has no attribute get"), auth)

/-- `AuthHandler.login`, as a function of the current state and the
transport outcome of the login POST.  Returns the raised error or the
returned envelope, together with the state after the call. -/
def login (auth : AuthHandler) (resp : TransportResult) :
    Except KError Json × AuthHandler :=
  match resp with
  | .requestError m =>
    (.error (.networkError ("Login request failed: " ++ m)), auth)
  | .ok status_code body =>
    if status_code == 401 || status_code == 403 then
      (.error (.authenticationError "Invalid credentials"), auth)
    else
      match body with
      | .obj fields => login_obj auth fields
      | _ =>
        (.error (.pyError "AttributeError: body has no attribute get"), auth)

/-- `AuthHandler.logout`: `try: post ... except httpx.RequestError: pass`
with a `finally` block resetting the session state.  `httpx.RequestError` is
the class of all transport-level errors, so both outcomes are swallowed and
both run the reset. -/
def logout (_auth : AuthHandler) (outcome : TransportResult) :
    Option KError × AuthHandler :=
  match outcome with
  | .ok _ _ => (none, ⟨.null, .null, false⟩)
  | .requestError _ => (none, ⟨.null, .null, false⟩)

/-- `RateLimiter` state (`knuspr/rate_limiter.py`): the configured minimum
interval and the `time.monotonic()` reading stored at the end of the last
wait.  Time is modelled as rational seconds. -/
structure RateLimiter where
  min_interval : ℚ
  last_request : ℚ
deriving Repr

/-- `RateLimiter.__init__`: `_last_request = 0.0`. -/
def RateLimiter.init (min_interval : ℚ) : RateLimiter := ⟨min_interval, 0⟩

/-- The sleep performed by `wait_sync` / `wait_async` when the clock reads
`now` at the start of the call: `min_interval - elapsed` when
`elapsed < min_interval`, nothing otherwise.  Both entry points compute the
same duration from the same shared state. -/
def RateLimiter.sleep_duration (rl : RateLimiter) (now : ℚ) : ℚ :=
  if now - rl.last_request < rl.min_interval then
    rl.min_interval - (now - rl.last_request)
  else 0

/-- `RateLimiter.wait_sync`: after sleeping, stores a fresh
`time.monotonic()` reading `after` (taken once the sleep has completed, so
`now + sleep_duration ≤ after` wherever this is used). -/
def RateLimiter.wait_sync (rl : RateLimiter) (after : ℚ) : RateLimiter :=
  ⟨rl.min_interval, after⟩

/-- `RateLimiter.wait_async`: same body as `wait_sync` with `asyncio.sleep`
in place of `time.sleep`, acting on the same shared state. -/
def RateLimiter.wait_async (rl : RateLimiter) (after : ℚ) : RateLimiter :=
  ⟨rl.min_interval, after⟩

/-! ### Domain records (`knuspr/models.py`)

The pydantic models are embedded as structures with an `Option`-valued
`model_validate` (`none` models a raised `ValidationError`).  All models use
`populate_by_name`, so a field is read from its wire alias first, then from
its Lean-side name.  `extra="allow"` (preservation of unknown keys) is not
modelled: no claim mentions `model_extra`.  Float-typed fields are carried
as raw `Json` values — no verified property computes with them. -/

/-- Decimal digit value of a character, if it is a digit. -/
def digitVal? (c : Char) : Option Nat :=
  if '0' ≤ c ∧ c ≤ '9' then some (c.toNat - '0'.toNat) else none

/-- Value of a non-empty all-digit character sequence. -/
def digitsVal? : List Char → Option Nat
  | [] => none
  | cs => go cs 0
where go : List Char → Nat → Option Nat
  | [], acc => some acc
  | c :: cs, acc =>
    match digitVal? c with
    | some d => go cs (acc * 10 + d)
    | none => none

/-- Python `int(str)`: an optional sign followed by decimal digits
(`ValueError`, i.e. `none`, otherwise). -/
def pyInt : String → Option Int := fun s =>
  match s.data with
  | '-' :: cs => (digitsVal? cs).map (fun n => -(n : Int))
  | '+' :: cs => (digitsVal? cs).map (fun n => (n : Int))
  | cs => (digitsVal? cs).map (fun n => (n : Int))

/-- Field lookup honouring `populate_by_name`: alias first, then name. -/
def getField (fs : List (String × Json)) (al nm : String) : Option Json :=
  match lookupField fs al with
  | some v => some v
  | none => lookupField fs nm

/-- pydantic validation of a required `str` field. -/
def jStr? : Json → Option String
  | .str s => some s
  | _ => none

/-- pydantic (lax) validation of an `int` field: accepts integers and
integer-shaped strings, rejects booleans. -/
def jInt? : Json → Option Int
  | .int n => some n
  | .str s => pyInt s
  | _ => none

/-- pydantic validation of a `bool` field. -/
def jBool? : Json → Option Bool
  | .bool b => some b
  | _ => none

/-- pydantic validation of a `str | None` field (present value). -/
def jOptStr? : Json → Option (Option String)
  | .null => some none
  | .str s => some (some s)
  | _ => none

/-- Validation of a field with a default: absent means the default. -/
def fieldD {α : Type} (fs : List (String × Json)) (al nm : String)
    (dflt : α) (conv : Json → Option α) : Option α :=
  match getField fs al nm with
  | none => some dflt
  | some v => conv v

/-- `CartItem` (`models.py`). -/
structure CartItem where
  order_field_id : String
  product_id : Int
  product_name : String
  quantity : Int
  price : Json
  primary_category_name : String
  brand : String
deriving Repr, BEq

/-- `CartItem.model_validate`: `orderFieldId` and `productId` are required,
the rest default. -/
def CartItem.model_validate : Json → Option CartItem
  | .obj fs => do
    let ofid ← (getField fs "orderFieldId" "order_field_id").bind jStr?
    let pid ← (getField fs "productId" "product_id").bind jInt?
    let pname ← fieldD fs "productName" "product_name" "" jStr?
    let qty ← fieldD fs "quantity" "quantity" 0 jInt?
    let price := (getField fs "price" "price").getD (.int 0)
    let cat ← fieldD fs "primaryCategoryName" "primary_category_name" "" jStr?
    let brand ← fieldD fs "brand" "brand" "" jStr?
    some ⟨ofid, pid, pname, qty, price, cat, brand⟩
  | _ => none

/-- `Cart` (`models.py`).  `total_price` is a float field, carried as raw
JSON here. -/
structure Cart where
  total_price : Json
  total_items : Nat
  can_make_order : Bool
  items : List CartItem
deriving Repr, BEq

/-- Python `dict[k] = v`: overwrite the existing key in place, or append a
new key at the end (insertion order). -/
def setField : List (String × Json) → String → Json → List (String × Json)
  | [], k, v => [(k, v)]
  | (k', v') :: fs, k, v =>
    if k' == k then (k, v) :: fs else (k', v') :: setField fs k v

/-- The accumulating `for`-loop shared by the list-mapping client methods:
apply `f` to each element in order, failing as soon as one application
fails (a raised Python error). -/
def mapOption {α β : Type} (f : α → Option β) : List α → Option (List β)
  | [] => some []
  | a :: l => do
    let b ← f a
    let bs ← mapOption f l
    pure (b :: bs)

/-- One entry of a mapping-shaped `items`: `int(product_id)` on the key
(`ValueError` on a non-numeric key), `item_data["productId"] = ...` (a
`TypeError` on a non-dict entry), then `CartItem.model_validate`. -/
def cart_entry_of (e : String × Json) : Option CartItem := do
  let n ← pyInt e.1
  match e.2 with
  | .obj ifs => CartItem.model_validate (.obj (setField ifs "productId" (.int n)))
  | _ => none

/-- The `items`-shape dispatch of `get_cart`: a mapping keyed by product id
has each key injected before validation, a plain sequence is validated
directly, and any other shape leaves the item list empty. -/
def cart_items_of (items_raw : Json) : Option (List CartItem) :=
  match items_raw with
  | .obj entries => mapOption cart_entry_of entries
  | .arr xs => mapOption CartItem.model_validate xs
  | _ => some []

/-- `KnusprClient.get_cart`, as a function of the normalized response body
`data` (the value `_get` returned).  `none` models any raised Python error
(`ValueError`, `TypeError`, pydantic `ValidationError`). -/
def get_cart (data : Json) : Option Cart :=
  match data with
  | .obj fs => do
    let cart_items ← cart_items_of (lookupOr fs "items" (.obj []))
    let can_make ← jBool? (lookupOr fs "canMakeOrder" (.bool false))
    some { total_price := lookupOr fs "totalPrice" (.int 0)
           total_items := cart_items.length
           can_make_order := can_make
           items := cart_items }
  | _ => none

/-- `SearchResult` (`models.py`).  `price` is typed `Any`. -/
structure SearchResult where
  id : Int
  name : String
  price : Json
  brand : String
  amount : String
  badge : Option String
  favourite : Bool
  in_stock : Bool
  image_path : Option String
deriving Repr, BEq

/-- `SearchResult.model_validate`: `productId` and `productName` required. -/
def SearchResult.model_validate : Json → Option SearchResult
  | .obj fs => do
    let id ← (getField fs "productId" "id").bind jInt?
    let name ← (getField fs "productName" "name").bind jStr?
    let price := (getField fs "price" "price").getD .null
    let brand ← fieldD fs "brand" "brand" "" jStr?
    let amount ← fieldD fs "textualAmount" "amount" "" jStr?
    let badge ← fieldD fs "badge" "badge" none jOptStr?
    let fav ← fieldD fs "favourite" "favourite" false jBool?
    let in_stock ← fieldD fs "inStock" "in_stock" true jBool?
    let img ← fieldD fs "imgPath" "image_path" none jOptStr?
    some ⟨id, name, price, brand, amount, badge, fav, in_stock, img⟩
  | _ => none

/-- The promotion test of `KnusprClient.search_products`:
`isinstance(badge, list) and any(b.get("slug") == "promoted" for b in badge
if isinstance(b, dict))` on one raw product entry's fields. -/
def badge_promoted (pfs : List (String × Json)) : Bool :=
  match lookupField pfs "badge" with
  | some (.arr bs) =>
    bs.any (fun b => match b with
      | .obj bfs => (lookupOr bfs "slug" .null).pyEq (.str "promoted")
      | _ => false)
  | _ => false

/-- The promotion test on a raw entry (`p.get("badge")` requires a dict). -/
def isPromoted : Json → Bool
  | .obj pfs => badge_promoted pfs
  | _ => false

/-- The result-building loop of `search_products` over `productList`. -/
def searchLoop : List Json → Option (List SearchResult)
  | [] => some []
  | p :: rest =>
    match p with
    | .obj pfs =>
      if badge_promoted pfs then searchLoop rest
      else do
        let r ← SearchResult.model_validate (.obj pfs)
        let rs ← searchLoop rest
        pure (r :: rs)
    | _ => none

/-- `KnusprClient.search_products`, as a function of the normalized response
body (query and pagination only shape the outgoing request, which no claim
is about).  `none` models a raised Python error. -/
def search_products (data : Json) : Option (List SearchResult) :=
  match data with
  | .obj fs =>
    match lookupOr fs "productList" (.arr []) with
    | .arr ps => searchLoop ps
    | _ => none
  | _ => none

/-- `OrderProduct` (`models.py`): every field optional. -/
structure OrderProduct where
  product_id : Json
  product_name : Option String
  name : Option String
  quantity : Option Int
  price : Json
  total_price : Json
  brand : Option String
deriving Repr, BEq

/-- Python `a or b` on an `Optional[str]`: `None` and `""` are falsy. -/
def pyOrStr : Option String → String → String
  | some s, b => if s == "" then b else s
  | none, b => b

/-- `OrderProduct.display_name`:
`self.product_name or self.name or "Unknown"`. -/
def OrderProduct.display_name (p : OrderProduct) : String :=
  pyOrStr p.product_name (pyOrStr p.name "Unknown")

/-- `DeliverySlot` (`models.py`).  The wire field `end` keeps its name via
guillemets; `price` (`float | None`) is validated as null-or-number. -/
structure DeliverySlot where
  id : Json
  start : Option String
  «end» : Option String
  is_available : Bool
  price : Json
deriving Repr, BEq

/-- `DeliverySlot.model_validate`: all fields optional / defaulted. -/
def DeliverySlot.model_validate : Json → Option DeliverySlot
  | .obj fs => do
    let id ← fieldD fs "id" "id" .null (fun v => match v with
      | .null => some .null | .int n => some (.int n) | .str s => some (.str s)
      | _ => none)
    let s ← fieldD fs "start" "start" none jOptStr?
    let e ← fieldD fs "end" "end" none jOptStr?
    let avail ← fieldD fs "is_available" "is_available" true jBool?
    let price ← fieldD fs "price" "price" .null (fun v => match v with
      | .null => some .null | .int n => some (.int n) | _ => none)
    some ⟨id, s, e, avail, price⟩
  | _ => none

/-- Python `str(...)` on the id values interpolated into query params. -/
def pyStr : Json → String
  | .null => "None"
  | .bool true => "True"
  | .bool false => "False"
  | .int n => toString n
  | .str s => s
  | .arr _ => "<list>"
  | .obj _ => "<dict>"

/-- `KnusprClient.get_delivery_slots`: the precondition check runs before
the query params are built and before the HTTP request is issued; the call
is modelled by `respond`, a function from the built query params to the
normalized body `_get` would return (or the error it would raise). -/
def get_delivery_slots (auth : AuthHandler)
    (respond : List (String × String) → Except KError Json) :
    Except KError (List DeliverySlot) :=
  if !auth.user_id.truthy || !auth.address_id.truthy then
    .error (.knusprError "user_id and address_id required. Are you logged in?")
  else
    let params := [("userId", pyStr auth.user_id),
                   ("addressId", pyStr auth.address_id),
                   ("reasonableDeliveryTime", "true")]
    match respond params with
    | .error e => .error e
    | .ok data =>
      let slots_raw : Option (List Json) :=
        match data with
        | .arr xs => some xs
        | .obj fs =>
          match lookupOr fs "slots" (.arr []) with
          | .arr ys => some ys
          | _ => none
        | _ => none
      match slots_raw with
      | none => .error (.pyError "TypeError: slots are not iterable")
      | some xs =>
        match mapOption DeliverySlot.model_validate xs with
        | some slots => .ok slots
        | none => .error (.pyError "ValidationError")

end Knuspr

namespace Knuspr

example : handle_response 429 Json.null
    = .error (.rateLimitError "Rate limit exceeded. Increase min_request_interval.") := rfl

example : handle_response 200 (Json.obj [("status", Json.int 200), ("data", Json.int 5)])
    = .ok (Json.int 5) := rfl

example : handle_response 200 (Json.arr [])
    = .error (.pyError "AttributeError: body has no attribute get") := rfl

/-! ### Helper lemmas -/

theorem Json.beq_def (a b : Json) : (a == b) = Json.beq a b := rfl

theorem lookupOr_eq_of_lookup {fs : List (String × Json)} {k : String} {v d : Json}
    (h : lookupField fs k = some v) : lookupOr fs k d = v := by
  simp [lookupOr, h]

theorem lookupOr_eq_default {fs : List (String × Json)} {k : String} {d : Json}
    (h : lookupField fs k = none) : lookupOr fs k d = d := by
  simp [lookupOr, h]

/-- Updating a key makes it the value subsequent lookups see. -/
theorem lookupField_setField (fs : List (String × Json)) (k : String) (v : Json) :
    lookupField (setField fs k v) k = some v := by
  induction fs with
  | nil => simp [setField, lookupField]
  | cons p fs ih =>
    obtain ⟨k', v'⟩ := p
    by_cases hp : (k' == k) = true
    · simp [setField, hp, lookupField]
    · simp [setField, hp, lookupField, ih]

theorem mapOption_length {α β : Type} (f : α → Option β) :
    ∀ (l : List α) (res : List β), mapOption f l = some res → res.length = l.length := by
  intro l
  induction l with
  | nil =>
    intro res h
    simp [mapOption] at h
    simp [← h]
  | cons a l ih =>
    intro res h
    simp only [mapOption, Option.pure_def, Option.bind_eq_bind, Option.bind_eq_some,
      Option.some.injEq] at h
    obtain ⟨b, _, bs, hbs, hres⟩ := h
    subst hres
    simp [ih bs hbs]

theorem mapOption_get {α β : Type} (f : α → Option β) :
    ∀ (l : List α) (res : List β), mapOption f l = some res →
      ∀ i (hi : i < l.length) (hj : i < res.length),
        f (l.get ⟨i, hi⟩) = some (res.get ⟨i, hj⟩) := by
  intro l
  induction l with
  | nil =>
    intro res h i hi
    simp at hi
  | cons a l ih =>
    intro res h i hi hj
    simp only [mapOption, Option.pure_def, Option.bind_eq_bind, Option.bind_eq_some,
      Option.some.injEq] at h
    obtain ⟨b, hb, bs, hbs, hres⟩ := h
    subst hres
    cases i with
    | zero => simpa using hb
    | succ i => exact ih bs hbs i (by simpa using hi) (by simpa using hj)

/-- A `CartItem` validated from an entry whose `productId` was just injected
carries exactly that injected id. -/
theorem validate_inject_product_id (ifs : List (String × Json)) (n : Int)
    (ci : CartItem)
    (h : CartItem.model_validate (.obj (setField ifs "productId" (.int n))) = some ci) :
    ci.product_id = n := by
  have hlk : getField (setField ifs "productId" (.int n)) "productId" "product_id"
      = some (.int n) := by
    simp [getField, lookupField_setField]
  simp only [CartItem.model_validate, hlk, Option.bind_eq_bind, Option.bind_eq_some,
    Option.some.injEq, Option.some_bind, jInt?] at h
  obtain ⟨ofid, _, pname, _, qty, _, cat, _, brand, _, hci⟩ := h
  subst hci
  rfl

/-- On a 2xx status, `_handle_response` reduces to the envelope dispatch. -/
theorem handle_response_2xx (sc : Nat) (fields : List (String × Json))
    (h200 : 200 ≤ sc) (h300 : sc < 300) :
    handle_response sc (.obj fields)
      = (if (lookupOr fields "status" .null).truthy
            && (lookupOr fields "status" .null).isPyInt
            && 400 ≤ (lookupOr fields "status" .null).pyIntVal then
           match envelopeMsg fields "API error" with
           | .ok msg => .error (.apiError msg (lookupOr fields "status" .null))
           | .error e => .error e
         else .ok (lookupOr fields "data" (.obj fields))) := by
  unfold handle_response
  rw [if_neg (by simp; omega), if_neg (by simp; omega), if_neg (by omega)]

/-- C3: every call to `logout` swallows transport-level errors (it never
raises) and, regardless of outcome — including when the POST raises — resets
`user_id` and `address_id` to null and `authenticated` to false. -/
theorem logout_swallows_and_resets (auth : AuthHandler) (outcome : TransportResult) :
    (logout auth outcome).1 = none
    ∧ (logout auth outcome).2.user_id = Json.null
    ∧ (logout auth outcome).2.address_id = Json.null
    ∧ (logout auth outcome).2.authenticated = false := by
  cases outcome <;> exact ⟨rfl, rfl, rfl, rfl⟩

/-- C9 counterexample: `product_name` is present (`some ""`) yet
`display_name` returns the fallback `name` value `"Bread"` rather than the
present `product_name` — Python `or` treats the empty string as absent,
refuting "returns product_name if present". -/
theorem display_name_present_empty_counterexample :
    OrderProduct.display_name
        ⟨Json.null, some "", some "Bread", none, Json.null, Json.null, none⟩ = "Bread"
    ∧ ("Bread" : String) ≠ "" := by
  exact ⟨rfl, by decide⟩

/-- C9 (amended): `display_name` returns `product_name` when it is present
and non-empty, else `name` when that is present and non-empty, else the
literal `"Unknown"`. -/
theorem display_name_spec (p : OrderProduct) :
    (∀ s, p.product_name = some s → s ≠ "" → p.display_name = s)
    ∧ ((p.product_name = none ∨ p.product_name = some "") →
        (∀ s, p.name = some s → s ≠ "" → p.display_name = s)
        ∧ ((p.name = none ∨ p.name = some "") → p.display_name = "Unknown")) := by
  constructor
  · intro s hs hne
    simp [OrderProduct.display_name, pyOrStr, hs, hne]
  · intro hpn
    have hfirst : p.display_name = pyOrStr p.name "Unknown" := by
      rcases hpn with h | h <;> simp [OrderProduct.display_name, pyOrStr, h]
    constructor
    · intro s hs hne
      rw [hfirst]
      simp [pyOrStr, hs, hne]
    · intro hn
      rw [hfirst]
      rcases hn with h | h <;> simp [pyOrStr, h]

/-- Witness for `display_name_spec` at the three concrete shapes exercised
by the repository's own tests. -/
theorem display_name_spec_witness :
    OrderProduct.display_name
        ⟨Json.null, some "Vollmilch", some "Milk", none, Json.null, Json.null, none⟩
      = "Vollmilch"
    ∧ OrderProduct.display_name
        ⟨Json.null, none, some "Milk", none, Json.null, Json.null, none⟩ = "Milk"
    ∧ OrderProduct.display_name
        ⟨Json.null, none, none, none, Json.null, Json.null, none⟩ = "Unknown" := by
  refine ⟨(display_name_spec _).1 "Vollmilch" rfl (by decide), ?_, ?_⟩
  · exact ((display_name_spec _).2 (Or.inl rfl)).1 "Milk" rfl (by decide)
  · exact ((display_name_spec _).2 (Or.inl rfl)).2 (Or.inl rfl)

/-- C6: whenever `get_cart` succeeds, the cart's `total_items` equals the
number of parsed items (whatever any server-reported count field in the body
says); when the server's `items` is a mapping keyed by product id, the i-th
parsed item's `product_id` is exactly the integer coercion of the i-th key
(injected before validation); when `items` is a plain sequence, the items
are the in-order direct validation of its elements. -/
theorem get_cart_spec (fs : List (String × Json)) (cart : Cart)
    (h : get_cart (.obj fs) = some cart) :
    cart.total_items = cart.items.length
    ∧ (∀ entries, lookupField fs "items" = some (.obj entries) →
        cart.items.length = entries.length
        ∧ ∀ i (hi : i < entries.length) (hj : i < cart.items.length),
            pyInt (entries.get ⟨i, hi⟩).1
              = some ((cart.items.get ⟨i, hj⟩).product_id))
    ∧ (∀ xs, lookupField fs "items" = some (.arr xs) →
        mapOption CartItem.model_validate xs = some cart.items) := by
  unfold get_cart at h
  simp only [Option.bind_eq_bind, Option.bind_eq_some, Option.some.injEq] at h
  obtain ⟨items0, hitems0, can, hcan, hcart⟩ := h
  subst hcart
  refine ⟨rfl, ?_, ?_⟩
  · intro entries he
    rw [lookupOr_eq_of_lookup he] at hitems0
    have hmap : mapOption cart_entry_of entries = some items0 := hitems0
    refine ⟨mapOption_length _ _ _ hmap, ?_⟩
    intro i hi hj
    have hf := mapOption_get _ _ _ hmap i hi hj
    simp only [cart_entry_of, Option.bind_eq_bind, Option.bind_eq_some] at hf
    obtain ⟨n, hn, hva⟩ := hf
    rcases he2 : (entries.get ⟨i, hi⟩).2 with _ | _ | _ | _ | _ | ifs <;>
      rw [he2] at hva
    case obj =>
      have hva' : CartItem.model_validate
          (.obj (setField ifs "productId" (.int n))) = some (items0.get ⟨i, hj⟩) := hva
      rw [hn, validate_inject_product_id _ _ _ hva']
    all_goals exact absurd hva (by simp)
  · intro xs hx
    rw [lookupOr_eq_of_lookup hx] at hitems0
    exact hitems0

/-- Witness for `get_cart_spec`: the mapping-shaped cart from the
repository's own test fixture — `items` keyed by `"1001"`/`"1002"`, the key
injected as each item's product id, `total_items` = 2 even though the body
carries no trustworthy count. -/
theorem get_cart_spec_witness :
    get_cart (.obj
        [("totalPrice", Json.int 4),
         ("itemsCount", Json.int 99),
         ("canMakeOrder", Json.bool true),
         ("items", Json.obj
           [("1001", Json.obj [("orderFieldId", Json.str "of-abc-123"),
                               ("productName", Json.str "Bio Vollmilch")]),
            ("1002", Json.obj [("orderFieldId", Json.str "of-def-456")])])])
      = some ⟨Json.int 4, 2, true,
          [⟨"of-abc-123", 1001, "Bio Vollmilch", 0, Json.int 0, "", ""⟩,
           ⟨"of-def-456", 1002, "", 0, Json.int 0, "", ""⟩]⟩
    ∧ (⟨Json.int 4, 2, true,
          [⟨"of-abc-123", 1001, "Bio Vollmilch", 0, Json.int 0, "", ""⟩,
           ⟨"of-def-456", 1002, "", 0, Json.int 0, "", ""⟩]⟩ : Cart).total_items
        = (⟨Json.int 4, 2, true,
          [⟨"of-abc-123", 1001, "Bio Vollmilch", 0, Json.int 0, "", ""⟩,
           ⟨"of-def-456", 1002, "", 0, Json.int 0, "", ""⟩]⟩ : Cart).items.length := by
  have h : get_cart (.obj
        [("totalPrice", Json.int 4),
         ("itemsCount", Json.int 99),
         ("canMakeOrder", Json.bool true),
         ("items", Json.obj
           [("1001", Json.obj [("orderFieldId", Json.str "of-abc-123"),
                               ("productName", Json.str "Bio Vollmilch")]),
            ("1002", Json.obj [("orderFieldId", Json.str "of-def-456")])])])
      = some ⟨Json.int 4, 2, true,
          [⟨"of-abc-123", 1001, "Bio Vollmilch", 0, Json.int 0, "", ""⟩,
           ⟨"of-def-456", 1002, "", 0, Json.int 0, "", ""⟩]⟩ := rfl
  exact ⟨h, (get_cart_spec _ _ h).1⟩

/-- The loop of `search_products` keeps exactly the non-promoted entries, in
their original order, each validated to a `SearchResult`. -/
theorem searchLoop_filter :
    ∀ (ps : List Json) (results : List SearchResult), searchLoop ps = some results →
      mapOption SearchResult.model_validate (ps.filter (fun p => !isPromoted p))
        = some results := by
  intro ps
  induction ps with
  | nil =>
    intro res h
    simpa [searchLoop, mapOption] using h
  | cons p rest ih =>
    intro res h
    rcases p with _ | b | n | s | xs | pfs
    case obj =>
      by_cases hp : badge_promoted pfs = true
      · rw [List.filter_cons_of_neg (by simp [isPromoted, hp])]
        exact ih res (by simpa [searchLoop, hp] using h)
      · simp only [searchLoop, hp, Bool.false_eq_true, if_false, Option.pure_def,
          Option.bind_eq_bind, Option.bind_eq_some, Option.some.injEq] at h
        obtain ⟨r, hr, rs, hrs, hres⟩ := h
        subst hres
        rw [List.filter_cons_of_pos (by simp [isPromoted, hp])]
        simp only [mapOption, Option.pure_def, Option.bind_eq_bind, hr,
          Option.some_bind, ih rs hrs]
    all_goals exact absurd h (by simp [searchLoop])

/-- C7: whenever `search_products` succeeds on a body whose `productList` is
a list, the returned results are the in-order validation of exactly those
entries whose badge list does NOT contain an entry with slug `"promoted"` —
promoted placements are excluded and the survivors keep their original
order. -/
theorem search_products_filters_promoted (fs : List (String × Json))
    (ps : List Json) (results : List SearchResult)
    (hraw : lookupField fs "productList" = some (.arr ps))
    (hres : search_products (.obj fs) = some results) :
    mapOption SearchResult.model_validate (ps.filter (fun p => !isPromoted p))
      = some results
    ∧ results.length = (ps.filter (fun p => !isPromoted p)).length := by
  have hres' : (match lookupOr fs "productList" (Json.arr []) with
      | Json.arr ps => searchLoop ps
      | _ => none) = some results := hres
  rw [lookupOr_eq_of_lookup hraw] at hres'
  have hloop : searchLoop ps = some results := hres'
  have hfil := searchLoop_filter ps results hloop
  exact ⟨hfil, mapOption_length _ _ _ hfil⟩

/-- Witness for `search_products_filters_promoted`: a three-entry product
list whose middle entry carries the `"promoted"` badge slug — the result
keeps entries 1001 and 1002 in order and drops the promoted one. -/
theorem search_products_filters_promoted_witness :
    search_products (.obj
        [("productList", Json.arr
          [Json.obj [("productId", Json.int 1001), ("productName", Json.str "Bio Vollmilch")],
           Json.obj [("productId", Json.int 9999), ("productName", Json.str "Ad"),
                     ("badge", Json.arr [Json.obj [("slug", Json.str "promoted")]])],
           Json.obj [("productId", Json.int 1002), ("productName", Json.str "Frische Milch")]])])
      = some [⟨1001, "Bio Vollmilch", Json.null, "", "", none, false, true, none⟩,
              ⟨1002, "Frische Milch", Json.null, "", "", none, false, true, none⟩]
    ∧ ([⟨1001, "Bio Vollmilch", Json.null, "", "", none, false, true, none⟩,
        ⟨1002, "Frische Milch", Json.null, "", "", none, false, true, none⟩]
         : List SearchResult).length = 2 := by
  have h : search_products (.obj
        [("productList", Json.arr
          [Json.obj [("productId", Json.int 1001), ("productName", Json.str "Bio Vollmilch")],
           Json.obj [("productId", Json.int 9999), ("productName", Json.str "Ad"),
                     ("badge", Json.arr [Json.obj [("slug", Json.str "promoted")]])],
           Json.obj [("productId", Json.int 1002), ("productName", Json.str "Frische Milch")]])])
      = some [⟨1001, "Bio Vollmilch", Json.null, "", "", none, false, true, none⟩,
              ⟨1002, "Frische Milch", Json.null, "", "", none, false, true, none⟩] := rfl
  exact ⟨h, (search_products_filters_promoted _
    [Json.obj [("productId", Json.int 1001), ("productName", Json.str "Bio Vollmilch")],
     Json.obj [("productId", Json.int 9999), ("productName", Json.str "Ad"),
               ("badge", Json.arr [Json.obj [("slug", Json.str "promoted")]])],
     Json.obj [("productId", Json.int 1002), ("productName", Json.str "Frische Milch")]]
    _ (by rfl) h).2⟩

/-- C8: when `user_id` or `address_id` is unresolved (`None`), the slot query
fails with the precondition `KnusprError` for every possible transport
behaviour `respond` — the error is decided before the query parameters are
built and before any HTTP call is issued. -/
theorem get_delivery_slots_precondition (auth : AuthHandler)
    (respond : List (String × String) → Except KError Json)
    (h : auth.user_id = Json.null ∨ auth.address_id = Json.null) :
    get_delivery_slots auth respond
      = .error (.knusprError "user_id and address_id required. Are you logged in?") := by
  unfold get_delivery_slots
  rcases h with h | h <;> simp [h, Json.truthy]

/-- Witness for `get_delivery_slots_precondition`: a freshly constructed
authenticator rejects the call even against a transport that would return
an empty slot list. -/
theorem get_delivery_slots_precondition_witness :
    get_delivery_slots AuthHandler.init (fun _ => .ok (Json.arr []))
      = .error (.knusprError "user_id and address_id required. Are you logged in?") :=
  get_delivery_slots_precondition AuthHandler.init _ (Or.inl rfl)

/-- C1: the internal request path — 429 raises `RateLimitError`; 401/403
raise `AuthenticationError`; any other HTTP error status (≥ 400) raises the
transport's status error reporting that status; on a 2xx status with a
JSON-object body, an integer `status` field ≥ 400 raises `APIError`
carrying that inner status with the first message's content (or the generic
fallback when `messages` is absent or empty); otherwise the `data` field is
returned when present, else the whole body. -/
theorem handle_response_envelope (sc : Nat) (body : Json) :
    (sc = 429 → handle_response sc body
        = .error (.rateLimitError "Rate limit exceeded. Increase min_request_interval."))
    ∧ ((sc = 401 ∨ sc = 403) → handle_response sc body
        = .error (.authenticationError "Session expired or invalid"))
    ∧ (400 ≤ sc → sc ≠ 429 → sc ≠ 401 → sc ≠ 403 →
        handle_response sc body = .error (.httpStatusError sc))
    ∧ (∀ fields, 200 ≤ sc → sc < 300 → body = .obj fields →
        (∀ n, lookupField fields "status" = some (.int n) → 400 ≤ n →
          ((lookupField fields "messages" = none
              ∨ lookupField fields "messages" = some (.arr [])) →
            handle_response sc body = .error (.apiError (.str "API error") (.int n)))
          ∧ (∀ mfs rest c,
              lookupField fields "messages" = some (.arr (.obj mfs :: rest)) →
              lookupField mfs "content" = some c →
              handle_response sc body = .error (.apiError c (.int n))))
        ∧ ((∀ n, lookupField fields "status" = some (.int n) → n < 400) →
            (∀ d, lookupField fields "data" = some d →
              handle_response sc body = .ok d)
            ∧ (lookupField fields "data" = none →
              handle_response sc body = .ok (.obj fields)))) := by
  refine ⟨?_, ?_, ?_, ?_⟩
  · intro h; subst h; rfl
  · rintro (h | h) <;> subst h <;> rfl
  · intro h400 h1 h2 h3
    unfold handle_response
    rw [if_neg (by simp; omega), if_neg (by simp; omega), if_pos (by omega)]
  · intro fields h200 h300 hbody
    subst hbody
    have hnorm := handle_response_2xx sc fields h200 h300
    constructor
    · intro n hst h400n
      rw [lookupOr_eq_of_lookup hst] at hnorm
      have hc : ((Json.int n).truthy && (Json.int n).isPyInt
          && 400 ≤ (Json.int n).pyIntVal) = true := by
        simp [Json.truthy, Json.isPyInt, Json.pyIntVal]
        omega
      rw [if_pos hc] at hnorm
      constructor
      · intro hmabs
        have hmsg : envelopeMsg fields "API error" = .ok (.str "API error") := by
          rcases hmabs with hm | hm
          · simp [envelopeMsg, lookupOr_eq_default hm, Json.truthy]
          · simp [envelopeMsg, lookupOr_eq_of_lookup hm, Json.truthy]
        rw [hmsg] at hnorm
        exact hnorm
      · intro mfs rest c hm hcnt
        have hmsg : envelopeMsg fields "API error" = .ok c := by
          simp [envelopeMsg, lookupOr_eq_of_lookup hm, Json.truthy,
            lookupOr_eq_of_lookup hcnt]
        rw [hmsg] at hnorm
        exact hnorm
    · intro hlt
      have hneg : ¬ (((lookupOr fields "status" Json.null).truthy
          && (lookupOr fields "status" Json.null).isPyInt
          && 400 ≤ (lookupOr fields "status" Json.null).pyIntVal) = true) := by
        rcases hst : lookupField fields "status" with _ | v
        · rw [lookupOr_eq_default hst]; simp [Json.truthy]
        · rw [lookupOr_eq_of_lookup hst]
          rcases v with _ | b | m | s | xs | ofs
          · simp [Json.truthy]
          · rcases b <;> simp [Json.truthy, Json.isPyInt, Json.pyIntVal]
          · have hm := hlt m hst
            simp [Json.truthy, Json.isPyInt, Json.pyIntVal]
            omega
          · simp [Json.isPyInt]
          · simp [Json.isPyInt]
          · simp [Json.isPyInt]
      rw [if_neg hneg] at hnorm
      constructor
      · intro d hd
        rw [lookupOr_eq_of_lookup hd] at hnorm
        exact hnorm
      · intro hd
        rw [lookupOr_eq_default hd] at hnorm
        exact hnorm

/-- Witness for `handle_response_envelope`: each translation at a concrete
status and body. -/
theorem handle_response_envelope_witness :
    handle_response 429 Json.null
      = .error (.rateLimitError "Rate limit exceeded. Increase min_request_interval.")
    ∧ handle_response 401 Json.null
      = .error (.authenticationError "Session expired or invalid")
    ∧ handle_response 500 Json.null = .error (.httpStatusError 500)
    ∧ handle_response 200 (Json.obj [("status", Json.int 404),
        ("messages", Json.arr [Json.obj [("type", Json.str "error"),
                                         ("content", Json.str "Not found")]])])
      = .error (.apiError (.str "Not found") (.int 404))
    ∧ handle_response 200 (Json.obj [("status", Json.int 200), ("data", Json.int 5)])
      = .ok (Json.int 5) := by
  refine ⟨(handle_response_envelope 429 Json.null).1 rfl,
          (handle_response_envelope 401 Json.null).2.1 (Or.inl rfl),
          (handle_response_envelope 500 Json.null).2.2.1
            (by omega) (by omega) (by omega) (by omega),
          ?_, ?_⟩
  · exact (((handle_response_envelope 200 _).2.2.2 _ (by omega) (by omega) rfl).1
      404 (by rfl) (by omega)).2 _ _ _ (by rfl) (by rfl)
  · refine (((handle_response_envelope 200 _).2.2.2 _ (by omega) (by omega) rfl).2
      ?_).1 _ (by rfl)
    intro n hn
    simp [lookupField] at hn
    omega

/-- C5 counterexample: a successful (200) response whose JSON body is a bare
JSON list is NOT returned — `body.get("status")` raises `AttributeError` on
a Python list, so the request path fails instead of returning the payload. -/
theorem bare_list_body_counterexample :
    handle_response 200 (Json.arr [Json.int 1])
      = .error (.pyError "AttributeError: body has no attribute get")
    ∧ handle_response 200 (Json.arr [Json.int 1]) ≠ .ok (Json.arr [Json.int 1]) := by
  refine ⟨rfl, ?_⟩
  intro h
  exact absurd ((show handle_response 200 (Json.arr [Json.int 1])
      = .error (.pyError "AttributeError: body has no attribute get") from rfl).symm.trans h)
    (by simp)

/-- C5 (amended): a successful response whose JSON body is a bare
JSON-object payload (no `status` field) is returned whole — or its `data`
field when one is present, which in particular may be the JSON list
produced by the delivery-slot and order endpoints — but a top-level JSON
list body is not tolerated: it raises an `AttributeError` instead of being
returned. -/
theorem bare_payload_tolerated (sc : Nat) (fields : List (String × Json))
    (h200 : 200 ≤ sc) (h300 : sc < 300)
    (hnostatus : lookupField fields "status" = none) :
    (lookupField fields "data" = none →
        handle_response sc (.obj fields) = .ok (.obj fields))
    ∧ (∀ d, lookupField fields "data" = some d →
        handle_response sc (.obj fields) = .ok d)
    ∧ (∀ xs, handle_response sc (.arr xs)
        = .error (.pyError "AttributeError: body has no attribute get")) := by
  have hnorm := handle_response_2xx sc fields h200 h300
  rw [lookupOr_eq_default hnostatus] at hnorm
  rw [if_neg (by simp [Json.truthy])] at hnorm
  refine ⟨?_, ?_, ?_⟩
  · intro hd; rw [lookupOr_eq_default hd] at hnorm; exact hnorm
  · intro d hd; rw [lookupOr_eq_of_lookup hd] at hnorm; exact hnorm
  · intro xs
    unfold handle_response
    rw [if_neg (by simp; omega), if_neg (by simp; omega), if_neg (by omega)]

/-- Witness for `bare_payload_tolerated`: a bare object payload comes back
whole, an envelope with a list-valued `data` yields that list. -/
theorem bare_payload_tolerated_witness :
    handle_response 200 (Json.obj [("productList", Json.arr [])])
      = .ok (Json.obj [("productList", Json.arr [])])
    ∧ handle_response 200 (Json.obj [("data", Json.arr [Json.int 7])])
      = .ok (Json.arr [Json.int 7]) := by
  refine ⟨(bare_payload_tolerated 200 _ (by omega) (by omega) (by rfl)).1 (by rfl), ?_⟩
  exact (bare_payload_tolerated 200 _ (by omega) (by omega) (by rfl)).2.1 _ (by rfl)

/-- Python `==` against an integer literal ≥ 2 agrees with structural
disequality (booleans only ever equal 0 or 1). -/
theorem pyEq_int_eq_false {st : Json} {k : Int} (hk : 2 ≤ k)
    (hne : st ≠ .int k) : st.pyEq (.int k) = false := by
  rcases st with _ | b | n | s | xs | fs
  · rfl
  · rcases b <;> simp [Json.pyEq] <;> omega
  · have hnk : n ≠ k := fun h => hne (by rw [h])
    simp [Json.pyEq, Json.beq_def, Json.beq, hnk]
  · rfl
  · rfl
  · rfl

/-- C2 counterexample: an envelope whose inner `status` field is present,
non-null (`0`), and not in {200, 202}: the claim demands an `APIError`
carrying status 0, but the code treats the falsy value 0 as "no status" and
completes the login successfully, even marking the session authenticated. -/
theorem login_status_zero_counterexample :
    (login AuthHandler.init (.ok 200 (Json.obj [("status", Json.int 0)]))).1
      = .ok (Json.obj [("status", Json.int 0)])
    ∧ (login AuthHandler.init (.ok 200 (Json.obj [("status", Json.int 0)]))).2.authenticated
      = true := ⟨rfl, rfl⟩

/-- C2 (amended): login raises `AuthenticationError` on transport status
401/403 and on inner status 401/403; it raises `APIError` carrying the
inner status — message from the first `messages` entry or the generic
fallback — whenever the inner status is present and TRUTHY (non-null and
neither zero, false, the empty string, nor an empty collection) and not in
{200, 202} (and not 401/403); it raises `NetworkError` on a transport
error; otherwise it extracts `data.user.id` / `data.address.id` (null when
absent), marks the session authenticated, and returns the raw envelope. -/
theorem login_envelope (auth : AuthHandler) (sc : Nat)
    (fields : List (String × Json)) (m : String) :
    ((sc = 401 ∨ sc = 403) →
      (login auth (.ok sc (.obj fields))).1
        = .error (.authenticationError "Invalid credentials"))
    ∧ ((login auth (.requestError m)).1
        = .error (.networkError ("Login request failed: " ++ m)))
    ∧ (sc ≠ 401 → sc ≠ 403 →
        (∀ n, lookupField fields "status" = some (.int n) → (n = 401 ∨ n = 403) →
          (login auth (.ok sc (.obj fields))).1
            = .error (.authenticationError "Invalid credentials"))
        ∧ (∀ st, lookupField fields "status" = some st → st.truthy = true →
            st ≠ .int 401 → st ≠ .int 403 → st ≠ .int 200 → st ≠ .int 202 →
            ((lookupField fields "messages" = none
                ∨ lookupField fields "messages" = some (.arr [])) →
              (login auth (.ok sc (.obj fields))).1
                = .error (.apiError (.str "Login failed") st))
            ∧ (∀ mfs rest c,
                lookupField fields "messages" = some (.arr (.obj mfs :: rest)) →
                lookupField mfs "content" = some c →
                (login auth (.ok sc (.obj fields))).1
                  = .error (.apiError c st)))
        ∧ (∀ dfs ufs afs,
            (lookupField fields "status" = none
              ∨ ∃ st, lookupField fields "status" = some st
                  ∧ (st.truthy = false ∨ st = .int 200 ∨ st = .int 202)) →
            lookupOr fields "data" (.obj []) = .obj dfs →
            lookupOr dfs "user" (.obj []) = .obj ufs →
            lookupOr dfs "address" (.obj []) = .obj afs →
            login auth (.ok sc (.obj fields))
              = (.ok (.obj fields),
                 ⟨lookupOr ufs "id" .null, lookupOr afs "id" .null, true⟩))) := by
  refine ⟨?_, rfl, ?_⟩
  · rintro (h | h) <;> subst h <;> rfl
  · intro hsc1 hsc2
    have hscF : (sc == 401 || sc == 403) = false := by simp [hsc1, hsc2]
    refine ⟨?_, ?_, ?_⟩
    · intro n hst hn
      have hOr : lookupOr fields "status" .null = .int n := lookupOr_eq_of_lookup hst
      rcases hn with h | h <;> subst h <;>
        simp [login, login_obj, hscF, hOr, Json.truthy, Json.pyEq, Json.beq_def, Json.beq]
    · intro st hst htr hne401 hne403 hne200 hne202
      have hOr : lookupOr fields "status" .null = st := lookupOr_eq_of_lookup hst
      have h401 := pyEq_int_eq_false (by norm_num) hne401
      have h403 := pyEq_int_eq_false (by norm_num) hne403
      have h200 := pyEq_int_eq_false (by norm_num) hne200
      have h202 := pyEq_int_eq_false (by norm_num) hne202
      constructor
      · intro hmabs
        have hmsg : envelopeMsg fields "Login failed" = .ok (.str "Login failed") := by
          rcases hmabs with hm | hm
          · simp [envelopeMsg, lookupOr_eq_default hm, Json.truthy]
          · simp [envelopeMsg, lookupOr_eq_of_lookup hm, Json.truthy]
        simp [login, login_obj, hscF, hOr, htr, h401, h403, h200, h202, hmsg]
      · intro mfs rest c hm hcnt
        have hmsg : envelopeMsg fields "Login failed" = .ok c := by
          simp [envelopeMsg, lookupOr_eq_of_lookup hm, Json.truthy,
            lookupOr_eq_of_lookup hcnt]
        simp [login, login_obj, hscF, hOr, htr, h401, h403, h200, h202, hmsg]
    · intro dfs ufs afs hstOk hdata huser haddr
      rcases hstOk with hst | ⟨st, hst, hok⟩
      · simp [login, login_obj, hscF, lookupOr_eq_default hst, Json.truthy,
          hdata, huser, haddr]
      · have hOr : lookupOr fields "status" .null = st := lookupOr_eq_of_lookup hst
        rcases hok with htr | h | h
        · simp [login, login_obj, hscF, hOr, htr, hdata, huser, haddr]
        · subst h
          simp [login, login_obj, hscF, hOr, Json.truthy, Json.pyEq, Json.beq_def, Json.beq,
            hdata, huser, haddr]
        · subst h
          simp [login, login_obj, hscF, hOr, Json.truthy, Json.pyEq, Json.beq_def, Json.beq,
            hdata, huser, haddr]

/-- Witness for `login_envelope`: transport 401; a connection error; inner
status 500 with a message; and the successful fixture envelope
(`user.id` 12345, `address.id` 67890). -/
theorem login_envelope_witness :
    (login AuthHandler.init (.ok 401 Json.null)).1
      = .error (.authenticationError "Invalid credentials")
    ∧ (login AuthHandler.init (.requestError "Connection refused")).1
      = .error (.networkError "Login request failed: Connection refused")
    ∧ (login AuthHandler.init (.ok 200 (Json.obj
        [("status", Json.int 500),
         ("data", Json.null),
         ("messages", Json.arr [Json.obj [("type", Json.str "error"),
                                          ("content", Json.str "Internal server error")]])]))).1
      = .error (.apiError (.str "Internal server error") (.int 500))
    ∧ login AuthHandler.init (.ok 200 (Json.obj
        [("status", Json.int 200),
         ("data", Json.obj [("user", Json.obj [("id", Json.int 12345)]),
                            ("address", Json.obj [("id", Json.int 67890)])]),
         ("messages", Json.arr [])]))
      = (.ok (Json.obj
          [("status", Json.int 200),
           ("data", Json.obj [("user", Json.obj [("id", Json.int 12345)]),
                              ("address", Json.obj [("id", Json.int 67890)])]),
           ("messages", Json.arr [])]),
         ⟨Json.int 12345, Json.int 67890, true⟩) := by
  refine ⟨(login_envelope AuthHandler.init 401 [] "x").1 (Or.inl rfl),
          (login_envelope AuthHandler.init 200 [] "Connection refused").2.1,
          ?_, ?_⟩
  · exact ((((login_envelope AuthHandler.init 200
      [("status", Json.int 500),
       ("data", Json.null),
       ("messages", Json.arr [Json.obj [("type", Json.str "error"),
                                        ("content", Json.str "Internal server error")]])]
      "x").2.2 (by omega) (by omega)).2.1
      (Json.int 500) (by rfl) (by rfl)
      (by simp) (by simp) (by simp) (by simp)).2
      _ _ _ (by rfl) (by rfl))
  · exact (((login_envelope AuthHandler.init 200
      [("status", Json.int 200),
       ("data", Json.obj [("user", Json.obj [("id", Json.int 12345)]),
                          ("address", Json.obj [("id", Json.int 67890)])]),
       ("messages", Json.arr [])]
      "x").2.2 (by omega) (by omega)).2.2
      _ _ _ (Or.inr ⟨Json.int 200, by rfl, Or.inr (Or.inl rfl)⟩)
      (by rfl) (by rfl) (by rfl))

/-- `login` on a dict body with a non-401/403 transport status dispatches to
the envelope handling. -/
theorem login_ok_obj (auth : AuthHandler) (sc : Nat) (fields : List (String × Json))
    (h1 : (sc == 401 || sc == 403) = false) :
    login auth (.ok sc (.obj fields)) = login_obj auth fields := by
  simp [login, h1]

/-- Case analysis of `login`: either the state is untouched, or the call
crashed with a Python runtime error after at most the `user_id` assignment
(leaving the `authenticated` flag as it was), or the call returned the
envelope. -/
theorem login_result (auth : AuthHandler) (resp : TransportResult) :
    (login auth resp).2 = auth
    ∨ ((login auth resp).2.authenticated = auth.authenticated
        ∧ ∃ msg, (login auth resp).1 = .error (.pyError msg))
    ∨ (∃ body, (login auth resp).1 = .ok body) := by
  rcases resp with ⟨sc, body⟩ | m
  case requestError => exact Or.inl rfl
  case ok =>
    by_cases h1 : (sc == 401 || sc == 403) = true
    · exact Or.inl (by simp [login, h1])
    · rw [Bool.not_eq_true] at h1
      rcases body with _ | b | n | s | xs | fields
      · exact Or.inl (by simp [login, h1])
      · exact Or.inl (by simp [login, h1])
      · exact Or.inl (by simp [login, h1])
      · exact Or.inl (by simp [login, h1])
      · exact Or.inl (by simp [login, h1])
      · rw [login_ok_obj auth sc fields h1]
        simp only [login_obj]
        by_cases hc1 : ((lookupOr fields "status" Json.null).truthy
            && ((lookupOr fields "status" Json.null).pyEq (Json.int 401)
              || (lookupOr fields "status" Json.null).pyEq (Json.int 403))) = true
        · rw [if_pos hc1]; exact Or.inl rfl
        · rw [if_neg hc1]
          by_cases hc2 : ((lookupOr fields "status" Json.null).truthy
              && !((lookupOr fields "status" Json.null).pyEq (Json.int 200)
                || (lookupOr fields "status" Json.null).pyEq (Json.int 202))) = true
          · rw [if_pos hc2]
            rcases hm : envelopeMsg fields "Login failed" with e | msg
            · exact Or.inl rfl
            · exact Or.inl rfl
          · rw [if_neg hc2]
            rcases hd : lookupOr fields "data" (Json.obj [])
                with _ | b1 | n1 | s1 | xs1 | dfs
            · exact Or.inl rfl
            · exact Or.inl rfl
            · exact Or.inl rfl
            · exact Or.inl rfl
            · exact Or.inl rfl
            · dsimp only []
              rcases hu : lookupOr dfs "user" (Json.obj [])
                  with _ | b2 | n2 | s2 | xs2 | ufs
              · exact Or.inl rfl
              · exact Or.inl rfl
              · exact Or.inl rfl
              · exact Or.inl rfl
              · exact Or.inl rfl
              · dsimp only []
                rcases ha : lookupOr dfs "address" (Json.obj [])
                    with _ | b3 | n3 | s3 | xs3 | afs
                · exact Or.inr (Or.inl ⟨rfl, _, rfl⟩)
                · exact Or.inr (Or.inl ⟨rfl, _, rfl⟩)
                · exact Or.inr (Or.inl ⟨rfl, _, rfl⟩)
                · exact Or.inr (Or.inl ⟨rfl, _, rfl⟩)
                · exact Or.inr (Or.inl ⟨rfl, _, rfl⟩)
                · exact Or.inr (Or.inr ⟨Json.obj fields, rfl⟩)

/-- C10: `login` mutates the session state only on the successful path —
whenever it raises `NetworkError`, `AuthenticationError`, or `APIError`,
`user_id`, `address_id` and `authenticated` are exactly the pre-call state,
and the `authenticated` flag can only become true when the call returns the
envelope. -/
theorem login_error_preserves_state (auth : AuthHandler) (resp : TransportResult) :
    (∀ m, (login auth resp).1 = .error (.networkError m) → (login auth resp).2 = auth)
    ∧ (∀ m, (login auth resp).1 = .error (.authenticationError m) →
        (login auth resp).2 = auth)
    ∧ (∀ m s, (login auth resp).1 = .error (.apiError m s) → (login auth resp).2 = auth)
    ∧ ((login auth resp).2.authenticated = true →
        auth.authenticated = true ∨ ∃ body, (login auth resp).1 = .ok body) := by
  have hres := login_result auth resp
  refine ⟨?_, ?_, ?_, ?_⟩
  · intro m h
    rcases hres with h2 | ⟨_, msg, h2⟩ | ⟨body, h2⟩
    · exact h2
    · rw [h] at h2; exact absurd h2 (by simp)
    · rw [h] at h2; exact absurd h2 (by simp)
  · intro m h
    rcases hres with h2 | ⟨_, msg, h2⟩ | ⟨body, h2⟩
    · exact h2
    · rw [h] at h2; exact absurd h2 (by simp)
    · rw [h] at h2; exact absurd h2 (by simp)
  · intro m s h
    rcases hres with h2 | ⟨_, msg, h2⟩ | ⟨body, h2⟩
    · exact h2
    · rw [h] at h2; exact absurd h2 (by simp)
    · rw [h] at h2; exact absurd h2 (by simp)
  · intro hauth
    rcases hres with h2 | ⟨heq, _⟩ | ⟨body, h2⟩
    · rw [h2] at hauth; exact Or.inl hauth
    · rw [heq] at hauth; exact Or.inl hauth
    · exact Or.inr ⟨body, h2⟩

/-- Witness for `login_error_preserves_state`: a transport 401 leaves the
fresh state untouched, and the successful fixture login flips
`authenticated`. -/
theorem login_error_preserves_state_witness :
    (login AuthHandler.init (.ok 401 Json.null)).2 = AuthHandler.init
    ∧ (AuthHandler.init.authenticated = true
        ∨ ∃ body, (login AuthHandler.init
            (.ok 200 (Json.obj [("status", Json.int 200)]))).1 = .ok body) := by
  refine ⟨(login_error_preserves_state AuthHandler.init (.ok 401 Json.null)).2.1
      "Invalid credentials" (by rfl), ?_⟩
  exact (login_error_preserves_state AuthHandler.init
      (.ok 200 (Json.obj [("status", Json.int 200)]))).2.2.2 (by rfl)

/-- C4 counterexample: the last-wait timestamp is initialized to `0.0`, not
to "no previous wait", so a first call whose monotonic-clock reading (1/2)
is below the minimum interval (1) sleeps a positive duration (1/2) — the
first call can wait. -/
theorem first_wait_counterexample :
    (RateLimiter.init 1).sleep_duration (1/2) = 1/2 ∧ ((1 : ℚ)/2) ≠ 0 := by
  constructor
  · norm_num [RateLimiter.sleep_duration, RateLimiter.init]
  · norm_num

/-- C4 (amended): the first call performs no wait provided the clock reading
at that call is at least the minimum interval (the shared timestamp starts
at 0); a wait completes no earlier than the previous completed wait's
timestamp plus the minimum interval; a call sleeps exactly the remaining
time when the elapsed time since the last completed wait is below the
interval and sleeps nothing otherwise; and both `wait_sync` and
`wait_async` store the post-sleep clock reading `after` into the single
shared timestamp at the end of the wait. -/
theorem rate_limiter_spacing (rl : RateLimiter) (now after : ℚ) :
    (rl.last_request = 0 → rl.min_interval ≤ now → rl.sleep_duration now = 0)
    ∧ rl.last_request + rl.min_interval ≤ now + rl.sleep_duration now
    ∧ (now - rl.last_request < rl.min_interval →
        rl.sleep_duration now = rl.min_interval - (now - rl.last_request))
    ∧ (rl.min_interval ≤ now - rl.last_request → rl.sleep_duration now = 0)
    ∧ (now + rl.sleep_duration now ≤ after →
        rl.last_request + rl.min_interval ≤ after
        ∧ (rl.wait_sync after).last_request = after
        ∧ (rl.wait_async after).last_request = after) := by
  have hsep : rl.last_request + rl.min_interval ≤ now + rl.sleep_duration now := by
    unfold RateLimiter.sleep_duration
    by_cases hc : now - rl.last_request < rl.min_interval
    · rw [if_pos hc]; linarith
    · rw [if_neg hc]; linarith [not_lt.mp hc]
  refine ⟨?_, hsep, ?_, ?_, ?_⟩
  · intro h0 hle
    unfold RateLimiter.sleep_duration
    rw [h0]
    rw [if_neg (by simpa using not_lt.mpr hle)]
  · intro hc
    unfold RateLimiter.sleep_duration
    rw [if_pos hc]
  · intro hc
    unfold RateLimiter.sleep_duration
    rw [if_neg (not_lt.mpr (by linarith))]
  · intro hafter
    exact ⟨le_trans hsep hafter, rfl, rfl⟩

/-- Witness for `rate_limiter_spacing`: a fresh limiter with interval 1,
first call at clock reading 5 — no sleep, and the wait completing at 5 sits
at least one interval after the initial timestamp 0. -/
theorem rate_limiter_spacing_witness :
    (RateLimiter.init 1).sleep_duration 5 = 0
    ∧ (RateLimiter.init 1).last_request + (RateLimiter.init 1).min_interval
        ≤ (5 : ℚ) + (RateLimiter.init 1).sleep_duration 5
    ∧ ((RateLimiter.init 1).wait_sync 5).last_request = 5 := by
  obtain ⟨h1, h2, _, _, h5⟩ := rate_limiter_spacing (RateLimiter.init 1) 5 5
  refine ⟨h1 rfl (by norm_num [RateLimiter.init]), h2, ?_⟩
  have h5' := h5 (by norm_num [RateLimiter.sleep_duration, RateLimiter.init])
  exact h5'.2.1

end Knuspr
